import Mathlib

/-!
Verification of the OpenAlex CLI request/parameter core
(`src/openalexcli/api/client.py`).

The Python code is shallowly embedded as executable Lean definitions:

* query-parameter construction (`OpenAlexAPI._build_params`,
  `OpenAlexAPI.search_works`) becomes a pure function from optional
  arguments to an association list of parameter names and values,
  faithful to Python truthiness tests and dict insertion order;
* identifier normalization (`_normalize_work_id`, `_normalize_author_id`,
  `_normalize_institution_id`, `_normalize_source_id`) becomes pure
  functions on lists of characters, with Python string primitives
  (`startswith`, `replace`, `lower`, `split`, substring test) modelled
  explicitly;
* the retry loop of `OpenAlexAPI._request` becomes a recursive function
  over a stream of HTTP exchange outcomes, a per-attempt uniform jitter
  draw, and the retry tunables; it returns the final outcome together
  with the number of HTTP exchanges performed and the waits slept.
-/

/-- A query-parameter value: Python passes both strings and ints. -/
inductive PValue where
  | str : String → PValue
  | int : Int → PValue
  deriving DecidableEq, Repr

/-- Join a list of strings with commas, as Python `",".join(...)`. -/
def commaJoin (parts : List String) : String :=
  String.intercalate (",") parts

/-- The allowed sorts when `group_by` is present (`client.py` line 291). -/
def groupSorts : List String :=
  ["key", "count", "count:desc", "count:asc", "key:desc", "key:asc"]

/-- Python `if v: params[key] = v` for an optional string argument. -/
def optStrParam (key : String) (v : Option String) : List (String × PValue) :=
  match v with
  | some s => if s ≠ "" then [(key, PValue.str s)] else []
  | none => []

/-- Python `if v: params[key] = v` for an optional int argument. -/
def optIntParam (key : String) (v : Option Int) : List (String × PValue) :=
  match v with
  | some n => if n ≠ 0 then [(key, PValue.int n)] else []
  | none => []

/-- Python `if select: params["select"] = ",".join(select)` (`client.py` line 298). -/
def selectParam (select : Option (List String)) : List (String × PValue) :=
  match select with
  | some l => if l ≠ [] then [("select", PValue.str (commaJoin l))] else []
  | none => []

/-- The `else` branch of the `group_by` test in `_build_params`
(`client.py` lines 295-299): add `sort` and `select` when truthy. -/
def sort_select_params (sort : Option String) (select : Option (List String)) :
    List (String × PValue) :=
  optStrParam ("sort") sort ++ selectParam select

/-- The grouped branch of `_build_params` (`client.py` lines 288-294):
always emit `group_by` and a `sort` restricted to `groupSorts`. -/
def group_by_params (g : String) (sort : Option String) : List (String × PValue) :=
  [("group_by", PValue.str g),
   ("sort", PValue.str (match sort with
     | some s => if s ∈ groupSorts then s else ("count:desc")
     | none => ("count:desc")))]

/-- The comma-joined filter clause list of `_build_params`
(`client.py` lines 276-282): the explicit filter string when truthy,
then one `key:value` clause per non-`None` extra filter. -/
def filterClauses (filter_str : Option String)
    (extra_filters : List (String × Option String)) : List String :=
  (match filter_str with
   | some s => if s ≠ "" then [s] else []
   | none => []) ++
  extra_filters.filterMap (fun kv => kv.2.map (fun v => kv.1 ++ (":") ++ v))

/-- Model of `OpenAlexAPI._build_params` (`client.py` lines 261-309), as the
association list of parameters in Python dict insertion order.  `email`
models `self.email`; optional arguments model Python `None` defaults and
every guard mirrors Python truthiness (`if filter_str:`, `if page:`, ...).
`extra_filters` is a list of key/value pairs in dict iteration order. -/
def build_params (email : Option String) (filter_str : Option String)
    (search : Option String) (sort : Option String)
    (page : Option Int) (per_page : Option Int)
    (select : Option (List String)) (group_by : Option String)
    (extra_filters : List (String × Option String)) : List (String × PValue) :=
  (if (filterClauses filter_str extra_filters).isEmpty then []
   else [("filter", PValue.str (commaJoin (filterClauses filter_str extra_filters)))]) ++
  optStrParam ("search") search ++
  (match group_by with
   | some g => if g ≠ "" then group_by_params g sort
               else sort_select_params sort select
   | none => sort_select_params sort select) ++
  optIntParam ("page") page ++
  optIntParam ("per_page") per_page ++
  optStrParam ("mailto") email

/-- The constant `DEFAULT_WORK_FIELDS` (`client.py` lines 53-67). -/
def DEFAULT_WORK_FIELDS : List String :=
  ["id", "doi", "title", "publication_year", "publication_date", "type",
   "cited_by_count", "open_access", "authorships", "primary_location",
   "abstract_inverted_index", "topics", "biblio"]

/-- Python `x or d` for an optional string argument. -/
def pyOrStr (v : Option String) (d : String) : String :=
  match v with
  | some s => if s ≠ "" then s else d
  | none => d

/-- Python `x or d` for an optional list argument. -/
def pyOrList (v : Option (List String)) (d : List String) : List String :=
  match v with
  | some l => if l ≠ [] then l else d
  | none => d

/-- The parameters `OpenAlexAPI.search_works` (`client.py` lines 329-367)
passes to `_request`: it assembles `extra_filters` from its convenience
arguments (only `open_access is True` adds `is_oa`, `min_citations` is
tested against `None`, the rest by truthiness) and delegates to
`_build_params` with `sort or "cited_by_count:desc"` and
`select or DEFAULT_WORK_FIELDS`. -/
def search_works_params (email : Option String) (query : Option String)
    (filter_str : Option String) (from_date : Option String)
    (to_date : Option String) (min_citations : Option Int)
    (open_access : Option Bool) (work_type : Option String)
    (sort : Option String) (page : Int) (per_page : Int)
    (select : Option (List String)) (group_by : Option String) :
    List (String × PValue) :=
  let extra_filters : List (String × Option String) :=
    (match from_date with
     | some d => if d ≠ "" then [("from_publication_date", some d)] else []
     | none => []) ++
    (match to_date with
     | some d => if d ≠ "" then [("to_publication_date", some d)] else []
     | none => []) ++
    (match min_citations with
     | some n => [("cited_by_count", some ((">") ++ toString n))]
     | none => []) ++
    (match open_access with
     | some true => [("is_oa", some ("true"))]
     | _ => []) ++
    (match work_type with
     | some t => if t ≠ "" then [("type", some t)] else []
     | none => [])
  build_params email filter_str query (some (pyOrStr sort ("cited_by_count:desc")))
    (some page) (some per_page) (some (pyOrList select DEFAULT_WORK_FIELDS))
    group_by extra_filters

/-- Python `needle in haystack` substring test, on lists of characters. -/
def pyContains (s sub : List Char) : Bool :=
  match s with
  | [] => sub.isEmpty
  | c :: rest => sub.isPrefixOf (c :: rest) || pyContains rest sub

/-- Python `s.startswith(pre)`. -/
def pyStartsWith (s pre : List Char) : Bool :=
  pre.isPrefixOf s

/-- Python `s.lower()` (the identifiers involved are ASCII). -/
def pyLower (s : List Char) : List Char :=
  s.map Char.toLower

/-- Helper for `pyReplace`: replace every leftmost, non-overlapping
occurrence of the non-empty pattern `p :: ps` by `repl`.  The `Nat`
argument is recursion fuel; every step consumes one unit and at least one
character, so fuel `s.length` always suffices. -/
def pyReplaceFuel (p : Char) (ps repl : List Char) : Nat → List Char → List Char
  | 0, s => s
  | _ + 1, [] => []
  | fuel + 1, c :: rest =>
    if (p :: ps).isPrefixOf (c :: rest) then
      repl ++ pyReplaceFuel p ps repl fuel (rest.drop ps.length)
    else
      c :: pyReplaceFuel p ps repl fuel rest

/-- Python `s.replace(pat, repl)`: replace every leftmost, non-overlapping
occurrence.  All patterns used by the client are non-empty literals; for an
empty pattern this model returns `s` unchanged. -/
def pyReplace (pat repl s : List Char) : List Char :=
  match pat with
  | [] => s
  | p :: ps => pyReplaceFuel p ps repl s.length s

/-- Python `s.split("/")[-1]`. -/
def pyLastSegment (s : List Char) : List Char :=
  (s.splitOn '/').getLastD []

/-- The resource-URL prefix `https://openalex.org/` stripped by every
normalizer. -/
def oaURL : List Char := "https://openalex.org/".data

/-- Model of `OpenAlexAPI._normalize_work_id` (`client.py` lines 415-438). -/
def normalize_work_id (w : List Char) : List Char :=
  if pyStartsWith w (("W").data) || pyStartsWith w oaURL then
    pyReplace oaURL [] w
  else if pyStartsWith w (("10.").data) || pyStartsWith w (("doi:").data) then
    ("doi:").data ++ pyReplace (("https://doi.org/").data) []
      (pyReplace (("doi:").data) [] w)
  else if pyStartsWith (pyLower w) (("pmid:").data) then pyLower w
  else if pyStartsWith (pyLower w) (("mag:").data) then pyLower w
  else if pyContains w (("openalex.org").data) then pyLastSegment w
  else w

/-- Model of `OpenAlexAPI._normalize_author_id` (`client.py` lines 515-526). -/
def normalize_author_id (w : List Char) : List Char :=
  if pyStartsWith w (("A").data) || pyStartsWith w oaURL then
    pyReplace oaURL [] w
  else if pyContains w (("orcid.org").data) || pyStartsWith w (("0000-").data) then
    ("orcid:").data ++ pyReplace (("orcid:").data) []
      (pyReplace (("https://orcid.org/").data) [] w)
  else w

/-- Model of `OpenAlexAPI._normalize_institution_id` (`client.py` lines 605-619). -/
def normalize_institution_id (w : List Char) : List Char :=
  if pyStartsWith w (("I").data) || pyStartsWith w oaURL then
    pyReplace oaURL [] w
  else if pyContains w (("ror.org").data) then ("ror:").data ++ pyLastSegment w
  else if pyStartsWith w (("ror:").data) then w
  else w

/-- Model of `OpenAlexAPI._normalize_source_id` (`client.py` lines 696-708). -/
def normalize_source_id (w : List Char) : List Char :=
  if pyStartsWith w (("S").data) || pyStartsWith w oaURL then
    pyReplace oaURL [] w
  else if w.length == 9 && (w.getD 4 (' ') == '-') then ("issn:").data ++ w
  else if pyStartsWith (pyLower w) (("issn:").data) then pyLower w
  else w

/-- One HTTP response, as `_request` consumes it: status code, the
`Retry-After` header (modelled as the parsed numeric value of a non-empty
digit-string header, `none` when absent — the code calls
`int(retry_after)` on it), the parsed `message` field of the body when
available (used for 400), and the decoded payload returned on 200. -/
structure HTTPResponse where
  status : Nat
  retryAfter : Option Nat
  bodyMessage : Option String
  payload : String
  deriving DecidableEq, Repr

/-- Outcome of one HTTP exchange: a response, or a transport-level fault
(`httpx.RequestError`) carrying its message. -/
inductive ExchangeOutcome where
  | response (r : HTTPResponse)
  | transportFault (msg : String)
  deriving DecidableEq, Repr

/-- The typed failures `_request` can raise.  `rateLimit` models
`RateLimitError` (`client.py` lines 40-49), whose message
`Rate limit exceeded`, status code 429 and remediation suggestion are
fixed by the class, plus the `retry_after` hint; `apiError` models plain
`APIError(message, status_code, suggestion)`. -/
inductive ReqFailure where
  | rateLimit (retry_after : Option Nat)
  | apiError (message : String) (status_code : Option Nat) (suggestion : Option String)
  deriving DecidableEq, Repr

/-- Observable outcome of one `_request` call: the returned payload or
raised failure, the number of HTTP exchanges performed, and the sequence
of slept waits (seconds) in chronological order. -/
structure RunResult where
  result : Except ReqFailure String
  exchanges : Nat
  sleeps : List Int
  deriving Repr

/-- Python `int()` on a rational: truncation toward zero. -/
def pyInt (q : ℚ) : Int :=
  if 0 ≤ q then Rat.floor q else -(Rat.floor (-q))

/-- The exponential-backoff base wait `min(2**attempt, max_retry_wait)`
(`client.py` lines 196-200, 245). -/
def waitBase (attempt maxWait : Nat) : Nat :=
  min (2 ^ attempt) maxWait

/-- The jitter product `wait_time * (0.75 + random.random() * 0.5)`
(`client.py` line 202) before `int()` truncation; `u` is the uniform draw
in `[0, 1)`. -/
def jitteredWait (base : Nat) (u : ℚ) : ℚ :=
  (base : ℚ) * (3/4 + u * (1/2))

/-- The wait actually stored and slept for a 429:
`int(wait_time * (0.75 + random.random() * 0.5))` (`client.py` line 202). -/
def storedWait (base : Nat) (u : ℚ) : Int :=
  pyInt (jitteredWait base u)

/-- The 404 suggestion (`client.py` line 222). -/
def notFoundSuggestion : String :=
  "Check the ID format. OpenAlex IDs start with W (works), A (authors), I (institutions), S (sources), etc."

/-- The 400 suggestion (`client.py` line 234). -/
def badRequestSuggestion : String :=
  "Check the query parameters and filter syntax"

/-- The transport-fault suggestion (`client.py` line 254). -/
def connectionSuggestion : String :=
  "Check your network connection"

/-- The retry loop of `OpenAlexAPI._request` (`client.py` lines 178-259).
`exch i` is the outcome of the HTTP exchange at attempt index `i`, `u i`
the uniform jitter draw at attempt `i`; `attempt` is the current index and
the `Nat` fuel is the number of loop iterations remaining, so the loop
`for attempt in range(max_retries + 1)` is entered with fuel
`maxRetries + 1`.  Status reporting (`_report_status`) is a side effect
with no influence on the outcome and is not modelled. -/
def request_loop (exch : Nat → ExchangeOutcome) (u : Nat → ℚ)
    (maxRetries maxWait : Nat) : Nat → Nat → RunResult
  | attempt, 0 =>
    ⟨Except.error (ReqFailure.apiError
        (("Request failed after ") ++ toString maxRetries ++ (" retries"))
        none none),
      attempt, []⟩
  | attempt, fuel + 1 =>
    match exch attempt with
    | ExchangeOutcome.response r =>
      if r.status == 200 then
        ⟨Except.ok r.payload, attempt + 1, []⟩
      else if r.status == 429 then
        let base : Nat :=
          match r.retryAfter with
          | some n => n
          | none => waitBase attempt maxWait
        let wait : Int := storedWait base (u attempt)
        if attempt < maxRetries then
          let rest := request_loop exch u maxRetries maxWait (attempt + 1) fuel
          ⟨rest.result, rest.exchanges, wait :: rest.sleeps⟩
        else
          ⟨Except.error (ReqFailure.rateLimit r.retryAfter), attempt + 1, []⟩
      else if r.status == 404 then
        ⟨Except.error (ReqFailure.apiError ("Entity not found") (some 404)
            (some notFoundSuggestion)), attempt + 1, []⟩
      else if r.status == 400 then
        ⟨Except.error (ReqFailure.apiError
            (match r.bodyMessage with
             | some m => m
             | none => ("Bad request"))
            (some 400) (some badRequestSuggestion)), attempt + 1, []⟩
      else
        ⟨Except.error (ReqFailure.apiError
            (("API request failed: ") ++ toString r.status) (some r.status) none),
          attempt + 1, []⟩
    | ExchangeOutcome.transportFault msg =>
      if attempt < maxRetries then
        let rest := request_loop exch u maxRetries maxWait (attempt + 1) fuel
        ⟨rest.result, rest.exchanges,
          ((waitBase attempt maxWait : Nat) : Int) :: rest.sleeps⟩
      else
        ⟨Except.error (ReqFailure.apiError (("Connection error: ") ++ msg) none
            (some connectionSuggestion)), attempt + 1, []⟩

/-- Model of `OpenAlexAPI._request`: run the retry loop from attempt 0 with
`max_retries + 1` iterations available. -/
def run_request (exch : Nat → ExchangeOutcome) (u : Nat → ℚ)
    (maxRetries maxWait : Nat) : RunResult :=
  request_loop exch u maxRetries maxWait 0 (maxRetries + 1)

example :
    (build_params none (some ("a:b")) (some ("q")) none (some 1) (some 25)
      (some (["id"])) none [("k", some ("v")), ("z", none)]).lookup ("filter")
      = some (PValue.str ("a:b,k:v")) := by decide

example :
    normalize_work_id (("10.1234/test").data) = ("doi:10.1234/test").data := by
  decide

example :
    normalize_institution_id (("https://ror.org/03vek6s52").data)
      = ("ror:03vek6s52").data := by decide

example :
    (build_params none none none (some ("publication_date")) none none none
      (some ("")) []).lookup ("sort") = some (PValue.str ("publication_date")) := by
  decide

theorem lookup_append_right {l₁ l₂ : List (String × PValue)} {k : String}
    (h : l₁.lookup k = none) : (l₁ ++ l₂).lookup k = l₂.lookup k := by
  induction l₁ with
  | nil => rfl
  | cons p t ih =>
    obtain ⟨a, b⟩ := p
    rw [List.cons_append]
    by_cases hk : k = a
    · subst hk; simp [List.lookup] at h
    · have hb : (k == a) = false := beq_eq_false_iff_ne.mpr hk
      simp only [List.lookup, hb] at h ⊢
      exact ih h

theorem lookup_optStrParam_ne {k key : String} {v : Option String} (h : k ≠ key) :
    (optStrParam key v).lookup k = none := by
  cases v with
  | none => rfl
  | some s =>
    unfold optStrParam
    split
    · simp [List.lookup, h]
    · rfl

theorem lookup_optIntParam_ne {k key : String} {v : Option Int} (h : k ≠ key) :
    (optIntParam key v).lookup k = none := by
  cases v with
  | none => rfl
  | some n =>
    unfold optIntParam
    split
    · simp [List.lookup, h]
    · rfl

theorem lookup_filterPart_ne {k : String} (h : k ≠ "filter")
    (fs : Option String) (efs : List (String × Option String)) :
    (if (filterClauses fs efs).isEmpty then []
     else [(("filter" : String), PValue.str (commaJoin (filterClauses fs efs)))]).lookup k
      = none := by
  split
  · rfl
  · have hb : (k == ("filter" : String)) = false := beq_eq_false_iff_ne.mpr h
    simp only [List.lookup, hb]

theorem lookup_group_by_params_ne {k : String} (h1 : k ≠ "group_by")
    (h2 : k ≠ "sort") (g : String) (sort : Option String) :
    (group_by_params g sort).lookup k = none := by
  have b1 : (k == ("group_by" : String)) = false := beq_eq_false_iff_ne.mpr h1
  have b2 : (k == ("sort" : String)) = false := beq_eq_false_iff_ne.mpr h2
  simp only [group_by_params, List.lookup, b1, b2]

/-- C1: in `_build_params`, a non-empty `group_by` takes the grouped branch,
whose parameters never include a `select` key, whatever `select` was. -/
theorem c1_group_by_suppresses_select
    (email filter_str search sort : Option String) (page per_page : Option Int)
    (select : Option (List String)) (g : String) (hg : g ≠ "")
    (extra_filters : List (String × Option String)) :
    (build_params email filter_str search sort page per_page select (some g)
      extra_filters).lookup ("select") = none := by
  simp only [build_params, List.append_assoc]
  rw [if_pos hg,
      lookup_append_right (lookup_filterPart_ne (by decide) _ _),
      lookup_append_right (lookup_optStrParam_ne (by decide)),
      lookup_append_right (lookup_group_by_params_ne (by decide) (by decide) _ _),
      lookup_append_right (lookup_optIntParam_ne (by decide)),
      lookup_append_right (lookup_optIntParam_ne (by decide))]
  exact lookup_optStrParam_ne (by decide)

/-- Witness for C1 at a concrete input. -/
theorem c1_group_by_suppresses_select_witness :
    (build_params none none none none none none (some (["id", "title"]))
      (some ("type")) []).lookup ("select") = none :=
  c1_group_by_suppresses_select none none none none none none
    (some (["id", "title"])) ("type") (by decide) []

/-- C2 counterexample: `group_by` may be present (supplied) yet empty.
Python `if group_by:` is then false, so the whitelist is never applied and
a disallowed `sort` such as `publication_date` passes through unchanged
instead of being replaced by `count:desc`. -/
theorem c2_grouped_sort_counterexample :
    (build_params none none none (some ("publication_date")) none none none
      (some ("")) []).lookup ("sort") = some (PValue.str ("publication_date"))
    ∧ some (PValue.str ("publication_date")) ≠ some (PValue.str ("count:desc")) :=
  ⟨by decide, by decide⟩

/-- C2 (amended to non-empty `group_by`): with `group_by` truthy, a supplied
`sort` among the six grouped-sort literals is preserved, and any other
supplied or absent `sort` is replaced by `count:desc`. -/
theorem c2_grouped_sort_whitelist
    (email filter_str search sort : Option String) (page per_page : Option Int)
    (select : Option (List String)) (g : String) (hg : g ≠ "")
    (extra_filters : List (String × Option String)) :
    (build_params email filter_str search sort page per_page select (some g)
      extra_filters).lookup ("sort")
      = some (PValue.str (match sort with
          | some s =>
            if s = "key" ∨ s = "count" ∨ s = "count:desc" ∨ s = "count:asc" ∨
               s = "key:desc" ∨ s = "key:asc" then s else ("count:desc")
          | none => ("count:desc"))) := by
  simp only [build_params, List.append_assoc]
  rw [if_pos hg,
      lookup_append_right (lookup_filterPart_ne (by decide) _ _),
      lookup_append_right (lookup_optStrParam_ne (by decide))]
  have b1 : (("sort" : String) == ("group_by" : String)) = false := by decide
  have b2 : (("sort" : String) == ("sort" : String)) = true := by decide
  simp only [group_by_params, List.cons_append, List.lookup, b1, b2]
  cases sort with
  | none => rfl
  | some s =>
    simp only [groupSorts, List.mem_cons, List.not_mem_nil, or_false]

/-- Witness for the amended C2: an allowed grouped sort is preserved. -/
theorem c2_grouped_sort_whitelist_witness :
    (build_params none none none (some ("count:asc")) none none none
      (some ("type")) []).lookup ("sort") = some (PValue.str ("count:asc")) :=
  c2_grouped_sort_whitelist none none none (some ("count:asc")) none none none
    ("type") (by decide) []

/-- C6: non-`None` extra filters are rendered `key:value` and appended after
the explicit filter string into one comma-joined `filter` parameter (`None`
entries omitted, duplicate keys concatenated); concretely, a work search
with `min_citations=100`, `open_access=True`, `from_date="2023-01-01"`
yields the three expected clauses alongside the `search` term, and an
explicit filter sharing a key with an extra filter keeps both clauses. -/
theorem c6_filter_construction :
    (∀ (email search sort : Option String) (page per_page : Option Int)
       (select : Option (List String)) (group_by : Option String)
       (f : String), f ≠ "" → ∀ (efs : List (String × Option String)),
       (build_params email (some f) search sort page per_page select group_by
         efs).lookup ("filter")
         = some (PValue.str (commaJoin (f :: efs.filterMap
             (fun kv => kv.2.map (fun v => kv.1 ++ (":") ++ v))))))
    ∧ (search_works_params none (some ("machine learning")) none
        (some ("2023-01-01")) none (some 100) (some true) none none 1 25
        none none).lookup ("filter")
        = some (PValue.str
            ("from_publication_date:2023-01-01,cited_by_count:>100,is_oa:true"))
    ∧ (search_works_params none (some ("machine learning")) none
        (some ("2023-01-01")) none (some 100) (some true) none none 1 25
        none none).lookup ("search") = some (PValue.str ("machine learning"))
    ∧ (build_params none (some ("is_oa:true")) none none none none none none
        [("is_oa", some ("false")), ("skipped", none)]).lookup ("filter")
        = some (PValue.str ("is_oa:true,is_oa:false")) := by
  refine ⟨?_, by decide, by decide, by decide⟩
  intro email search sort page per_page select group_by f hf efs
  have hcl : filterClauses (some f) efs
      = f :: efs.filterMap (fun kv => kv.2.map (fun v => kv.1 ++ (":") ++ v)) := by
    simp only [filterClauses]
    rw [if_pos hf]
    rfl
  simp only [build_params, List.append_assoc, hcl, List.isEmpty_cons,
    Bool.false_eq_true, if_false, List.cons_append, List.nil_append]
  have b1 : (("filter" : String) == ("filter" : String)) = true := by decide
  simp only [List.lookup, b1]

/-- Witness for C6's universally quantified conjunct at a concrete input. -/
theorem c6_filter_construction_witness :
    (build_params none (some ("a:b")) none none none none none none
      [("k", some ("v")), ("z", none)]).lookup ("filter")
      = some (PValue.str (commaJoin (("a:b") :: ([("k", some ("v")), ("z", none)].filterMap
          (fun kv => kv.2.map (fun v => kv.1 ++ (":") ++ v)))))) :=
  c6_filter_construction.1 none none none none none none none ("a:b")
    (by decide) [("k", some ("v")), ("z", none)]

/-- C10: `search_works` adds an `is_oa` clause only for the literal `True`;
`open_access=False` and `open_access=None` build identical parameters. -/
theorem c10_open_access_false_is_noop
    (email query filter_str from_date to_date : Option String)
    (min_citations : Option Int) (work_type sort : Option String)
    (page per_page : Int) (select : Option (List String))
    (group_by : Option String) :
    search_works_params email query filter_str from_date to_date min_citations
      (some false) work_type sort page per_page select group_by
    = search_works_params email query filter_str from_date to_date min_citations
      none work_type sort page per_page select group_by := rfl

theorem pyContains_cons_false {c : Char} {rest sub : List Char}
    (h : pyContains (c :: rest) sub = false) :
    sub.isPrefixOf (c :: rest) = false ∧ pyContains rest sub = false := by
  simpa [pyContains] using h

theorem pyReplaceFuel_id_of_not_contains (p : Char) (ps repl : List Char) :
    ∀ (fuel : Nat) (s : List Char), pyContains s (p :: ps) = false →
      pyReplaceFuel p ps repl fuel s = s := by
  intro fuel
  induction fuel with
  | zero => intro s _; rfl
  | succ n ih =>
    intro s h
    cases s with
    | nil => rfl
    | cons c rest =>
      obtain ⟨h1, h2⟩ := pyContains_cons_false h
      simp [pyReplaceFuel, h1, ih rest h2]

theorem pyReplace_id_of_not_contains {pat repl s : List Char}
    (h : pyContains s pat = false) : pyReplace pat repl s = s := by
  cases pat with
  | nil => rfl
  | cons p ps => exact pyReplaceFuel_id_of_not_contains p ps repl s.length s h

theorem pyReplaceFuel_fuel_congr (p : Char) (ps repl : List Char) :
    ∀ (f₁ f₂ : Nat) (s : List Char), s.length ≤ f₁ → s.length ≤ f₂ →
      pyReplaceFuel p ps repl f₁ s = pyReplaceFuel p ps repl f₂ s := by
  intro f₁
  induction f₁ with
  | zero =>
    intro f₂ s h1 _
    have hs : s = [] := List.length_eq_zero.mp (Nat.le_zero.mp h1)
    subst hs
    cases f₂ <;> rfl
  | succ n ih =>
    intro f₂ s h1 h2
    cases s with
    | nil => cases f₂ <;> rfl
    | cons c rest =>
      cases f₂ with
      | zero => simp at h2
      | succ m =>
        simp only [List.length_cons] at h1 h2
        by_cases hp : (p :: ps).isPrefixOf (c :: rest) = true
        · simp only [pyReplaceFuel, hp, if_true]
          refine congrArg (repl ++ ·) (ih m (rest.drop ps.length) ?_ ?_) <;>
            simp only [List.length_drop] <;> omega
        · simp only [pyReplaceFuel, hp, if_false]
          exact congrArg (c :: ·) (ih m rest (by omega) (by omega))

theorem isPrefixOf_append_self : ∀ (l t : List Char), l.isPrefixOf (l ++ t) = true := by
  intro l t
  induction l with
  | nil => simp
  | cons a as ih => simp [List.isPrefixOf_cons₂, ih]

theorem pyReplace_append_self (p : Char) (ps repl s : List Char) :
    pyReplace (p :: ps) repl ((p :: ps) ++ s) = repl ++ pyReplace (p :: ps) repl s := by
  have hpre : (p :: ps).isPrefixOf (p :: (ps ++ s)) = true := by
    have := isPrefixOf_append_self (p :: ps) s
    rwa [List.cons_append] at this
  show pyReplaceFuel p ps repl ((p :: ps) ++ s).length ((p :: ps) ++ s)
      = repl ++ pyReplaceFuel p ps repl s.length s
  rw [List.cons_append, List.length_cons]
  simp only [pyReplaceFuel, hpre, if_true, List.drop_left]
  refine congrArg (repl ++ ·) (pyReplaceFuel_fuel_congr p ps repl _ _ s ?_ ?_) <;>
    simp [List.length_append]

theorem oaURL_cons : oaURL = 'h' :: ("ttps://openalex.org/").data := rfl

theorem pyReplace_oaURL_strip {x : List Char} (h : pyContains x oaURL = false) :
    pyReplace oaURL [] (oaURL ++ x) = x := by
  rw [oaURL_cons]
  rw [pyReplace_append_self, List.nil_append]
  rw [oaURL_cons] at h
  exact pyReplace_id_of_not_contains h

theorem normalize_work_id_fixed {t : List Char}
    (h : pyContains ('W' :: t) oaURL = false) :
    normalize_work_id ('W' :: t) = 'W' :: t := by
  have hW : pyStartsWith ('W' :: t) (("W").data) = true := by
    show (['W'] : List Char).isPrefixOf ('W' :: t) = true
    simp [List.isPrefixOf_cons₂]
  unfold normalize_work_id
  rw [if_pos (by rw [hW]; exact Bool.true_or _)]
  exact pyReplace_id_of_not_contains h

theorem normalize_work_id_url {t : List Char}
    (h : pyContains ('W' :: t) oaURL = false) :
    normalize_work_id (oaURL ++ 'W' :: t) = 'W' :: t := by
  have hURL : pyStartsWith (oaURL ++ 'W' :: t) oaURL = true := by
    show oaURL.isPrefixOf (oaURL ++ 'W' :: t) = true
    exact isPrefixOf_append_self oaURL ('W' :: t)
  unfold normalize_work_id
  rw [if_pos (by rw [hURL]; exact Bool.or_true _)]
  exact pyReplace_oaURL_strip h

theorem normalize_author_id_fixed {t : List Char}
    (h : pyContains ('A' :: t) oaURL = false) :
    normalize_author_id ('A' :: t) = 'A' :: t := by
  have hA : pyStartsWith ('A' :: t) (("A").data) = true := by
    show (['A'] : List Char).isPrefixOf ('A' :: t) = true
    simp [List.isPrefixOf_cons₂]
  unfold normalize_author_id
  rw [if_pos (by rw [hA]; exact Bool.true_or _)]
  exact pyReplace_id_of_not_contains h

theorem normalize_author_id_url {t : List Char}
    (h : pyContains ('A' :: t) oaURL = false) :
    normalize_author_id (oaURL ++ 'A' :: t) = 'A' :: t := by
  have hURL : pyStartsWith (oaURL ++ 'A' :: t) oaURL = true := by
    show oaURL.isPrefixOf (oaURL ++ 'A' :: t) = true
    exact isPrefixOf_append_self oaURL ('A' :: t)
  unfold normalize_author_id
  rw [if_pos (by rw [hURL]; exact Bool.or_true _)]
  exact pyReplace_oaURL_strip h

theorem normalize_institution_id_fixed {t : List Char}
    (h : pyContains ('I' :: t) oaURL = false) :
    normalize_institution_id ('I' :: t) = 'I' :: t := by
  have hI : pyStartsWith ('I' :: t) (("I").data) = true := by
    show (['I'] : List Char).isPrefixOf ('I' :: t) = true
    simp [List.isPrefixOf_cons₂]
  unfold normalize_institution_id
  rw [if_pos (by rw [hI]; exact Bool.true_or _)]
  exact pyReplace_id_of_not_contains h

theorem normalize_institution_id_url {t : List Char}
    (h : pyContains ('I' :: t) oaURL = false) :
    normalize_institution_id (oaURL ++ 'I' :: t) = 'I' :: t := by
  have hURL : pyStartsWith (oaURL ++ 'I' :: t) oaURL = true := by
    show oaURL.isPrefixOf (oaURL ++ 'I' :: t) = true
    exact isPrefixOf_append_self oaURL ('I' :: t)
  unfold normalize_institution_id
  rw [if_pos (by rw [hURL]; exact Bool.or_true _)]
  exact pyReplace_oaURL_strip h

theorem normalize_source_id_fixed {t : List Char}
    (h : pyContains ('S' :: t) oaURL = false) :
    normalize_source_id ('S' :: t) = 'S' :: t := by
  have hS : pyStartsWith ('S' :: t) (("S").data) = true := by
    show (['S'] : List Char).isPrefixOf ('S' :: t) = true
    simp [List.isPrefixOf_cons₂]
  unfold normalize_source_id
  rw [if_pos (by rw [hS]; exact Bool.true_or _)]
  exact pyReplace_id_of_not_contains h

theorem normalize_source_id_url {t : List Char}
    (h : pyContains ('S' :: t) oaURL = false) :
    normalize_source_id (oaURL ++ 'S' :: t) = 'S' :: t := by
  have hURL : pyStartsWith (oaURL ++ 'S' :: t) oaURL = true := by
    show oaURL.isPrefixOf (oaURL ++ 'S' :: t) = true
    exact isPrefixOf_append_self oaURL ('S' :: t)
  unfold normalize_source_id
  rw [if_pos (by rw [hURL]; exact Bool.or_true _)]
  exact pyReplace_oaURL_strip h

/-- C5 counterexample: a string prefixed with the correct entity letter `W`
on which the work normalizer is not idempotent.  Python `str.replace`
deletes every occurrence of `https://openalex.org/`, and the deletions can
splice a fresh occurrence together, which only a second pass removes. -/
theorem c5_idempotence_counterexample :
    normalize_work_id (normalize_work_id
        (("Whtthttps://openalex.org/ps://openalex.org/").data))
      ≠ normalize_work_id (("Whtthttps://openalex.org/ps://openalex.org/").data) := by
  decide

/-- C5 (amended): each normalizer is idempotent on native-form identifiers
`letter ++ tail` and `https://openalex.org/ ++ letter ++ tail`, provided
the identifier contains no occurrence of `https://openalex.org/` beyond the
leading one (the counterexample shows the proviso is necessary). -/
theorem c5_native_idempotence : ∀ t : List Char,
    (pyContains ('W' :: t) oaURL = false →
      normalize_work_id (normalize_work_id ('W' :: t))
        = normalize_work_id ('W' :: t)
      ∧ normalize_work_id (normalize_work_id (oaURL ++ 'W' :: t))
        = normalize_work_id (oaURL ++ 'W' :: t))
    ∧ (pyContains ('A' :: t) oaURL = false →
      normalize_author_id (normalize_author_id ('A' :: t))
        = normalize_author_id ('A' :: t)
      ∧ normalize_author_id (normalize_author_id (oaURL ++ 'A' :: t))
        = normalize_author_id (oaURL ++ 'A' :: t))
    ∧ (pyContains ('I' :: t) oaURL = false →
      normalize_institution_id (normalize_institution_id ('I' :: t))
        = normalize_institution_id ('I' :: t)
      ∧ normalize_institution_id (normalize_institution_id (oaURL ++ 'I' :: t))
        = normalize_institution_id (oaURL ++ 'I' :: t))
    ∧ (pyContains ('S' :: t) oaURL = false →
      normalize_source_id (normalize_source_id ('S' :: t))
        = normalize_source_id ('S' :: t)
      ∧ normalize_source_id (normalize_source_id (oaURL ++ 'S' :: t))
        = normalize_source_id (oaURL ++ 'S' :: t)) := by
  intro t
  refine ⟨fun h => ⟨?_, ?_⟩, fun h => ⟨?_, ?_⟩, fun h => ⟨?_, ?_⟩, fun h => ⟨?_, ?_⟩⟩
  · rw [normalize_work_id_fixed h, normalize_work_id_fixed h]
  · rw [normalize_work_id_url h, normalize_work_id_fixed h]
  · rw [normalize_author_id_fixed h, normalize_author_id_fixed h]
  · rw [normalize_author_id_url h, normalize_author_id_fixed h]
  · rw [normalize_institution_id_fixed h, normalize_institution_id_fixed h]
  · rw [normalize_institution_id_url h, normalize_institution_id_fixed h]
  · rw [normalize_source_id_fixed h, normalize_source_id_fixed h]
  · rw [normalize_source_id_url h, normalize_source_id_fixed h]

/-- Witness for the amended C5 at concrete native identifiers. -/
theorem c5_native_idempotence_witness :
    pyContains ('W' :: ("123").data) oaURL = false
    ∧ normalize_work_id (normalize_work_id ('W' :: ("123").data))
        = normalize_work_id ('W' :: ("123").data)
    ∧ normalize_author_id (normalize_author_id (oaURL ++ 'A' :: ("5678").data))
        = normalize_author_id (oaURL ++ 'A' :: ("5678").data) :=
  ⟨by decide, ((c5_native_idempotence (("123").data)).1 (by decide)).1,
    ((c5_native_idempotence (("5678").data)).2.1 (by decide)).2⟩

/-- C7: the four specified work-normalizer equalities (bare DOI, prefixed
DOI, upper-case PMID, and full resource URL). -/
theorem c7_work_normalizer_equalities :
    normalize_work_id (("10.1234/test").data) = ("doi:10.1234/test").data
    ∧ normalize_work_id (("doi:10.1234/test").data) = ("doi:10.1234/test").data
    ∧ normalize_work_id (("PMID:12345").data) = ("pmid:12345").data
    ∧ normalize_work_id (("https://openalex.org/W123").data) = ("W123").data :=
  ⟨by decide, by decide, by decide, by decide⟩

theorem isPrefixOf_false_of_head_ne {a b : Char} {ps qs w : List Char}
    (hab : (b == a) = false) (h : (a :: ps).isPrefixOf w = true) :
    (b :: qs).isPrefixOf w = false := by
  cases w with
  | nil => simp at h
  | cons c rest =>
    rw [List.isPrefixOf_cons₂] at h
    simp only [Bool.and_eq_true, beq_iff_eq] at h
    obtain ⟨hac, -⟩ := h
    subst hac
    rw [List.isPrefixOf_cons₂, hab, Bool.false_and]

/-- C8 counterexample: `0009-0001-2345-6789` begins with four digits and a
hyphen (a valid ORCID shape), but the code only tests for the literal
prefix `0000-`, so the value passes through instead of being re-emitted as
`orcid:0009-0001-2345-6789`. -/
theorem c8_orcid_counterexample :
    normalize_author_id (("0009-0001-2345-6789").data)
      = ("0009-0001-2345-6789").data
    ∧ normalize_author_id (("0009-0001-2345-6789").data)
      ≠ ("orcid:0009-0001-2345-6789").data :=
  ⟨by decide, by decide⟩

/-- C8 (amended): for non-native author references, a value containing
`orcid.org` or starting with the literal `0000-` is stripped of its URL and
`orcid:` wrappers and re-emitted as `orcid:<orcid>`; a value merely
prefixed `orcid:` (without those features) passes through unchanged, which
already has the `orcid:<orcid>` shape; the two concrete equalities of the
claim hold. -/
theorem c8_orcid_normalization :
    (∀ w : List Char, pyStartsWith w (("A").data) = false →
       pyStartsWith w oaURL = false →
       (pyContains w (("orcid.org").data) = true
         ∨ pyStartsWith w (("0000-").data) = true) →
       normalize_author_id w = ("orcid:").data ++
         pyReplace (("orcid:").data) []
           (pyReplace (("https://orcid.org/").data) [] w))
    ∧ (∀ w : List Char, pyStartsWith w (("orcid:").data) = true →
       pyContains w (("orcid.org").data) = false →
       normalize_author_id w = w)
    ∧ normalize_author_id (("0000-0002-1825-0097").data)
        = ("orcid:0000-0002-1825-0097").data
    ∧ normalize_author_id (("https://orcid.org/0000-0002-1825-0097").data)
        = ("orcid:0000-0002-1825-0097").data := by
  refine ⟨?_, ?_, by decide, by decide⟩
  · intro w h1 h2 h3
    unfold normalize_author_id
    rw [if_neg (by rw [h1, h2]; exact Bool.false_eq_true ▸ (by simp))]
    rcases h3 with h3 | h3
    · rw [if_pos (by rw [h3]; exact Bool.true_or _)]
    · rw [if_pos (by rw [h3]; exact Bool.or_true _)]
  · intro w hpre hcon
    have hpre' : (('o') :: ("rcid:").data).isPrefixOf w = true := hpre
    have h1 : pyStartsWith w (("A").data) = false :=
      isPrefixOf_false_of_head_ne (by decide) hpre'
    have h2 : pyStartsWith w oaURL = false :=
      isPrefixOf_false_of_head_ne (by decide) hpre'
    have h3 : pyStartsWith w (("0000-").data) = false :=
      isPrefixOf_false_of_head_ne (by decide) hpre'
    unfold normalize_author_id
    rw [if_neg (by rw [h1, h2]; simp), if_neg (by rw [hcon, h3]; simp)]

/-- Witness for the amended C8's quantified parts at concrete inputs. -/
theorem c8_orcid_normalization_witness :
    normalize_author_id (("orcid:0000-0002-1825-0097").data)
      = ("orcid:0000-0002-1825-0097").data
    ∧ normalize_author_id (("0000-0001-2345-6789").data)
      = ("orcid:").data ++
        pyReplace (("orcid:").data) []
          (pyReplace (("https://orcid.org/").data) []
            (("0000-0001-2345-6789").data)) :=
  ⟨c8_orcid_normalization.2.1 (("orcid:0000-0002-1825-0097").data)
      (by decide) (by decide),
    c8_orcid_normalization.1 (("0000-0001-2345-6789").data)
      (by decide) (by decide) (Or.inr (by decide))⟩

/-- C3: when every attempted exchange returns 429, `_request` performs
exactly `max_retries + 1` exchanges (attempts 0..max_retries inclusive,
with `max_retries` sleeps between them) and then raises `RateLimitError`
carrying the final response's `Retry-After` value, `none` when absent. -/
theorem c3_rate_limit_exhaustion
    (exch : Nat → ExchangeOutcome) (u : Nat → ℚ) (maxRetries maxWait : Nat)
    (r : Nat → HTTPResponse)
    (hr : ∀ i, exch i = ExchangeOutcome.response (r i))
    (h429 : ∀ i, (r i).status = 429) :
    (run_request exch u maxRetries maxWait).result
        = Except.error (ReqFailure.rateLimit (r maxRetries).retryAfter)
    ∧ (run_request exch u maxRetries maxWait).exchanges = maxRetries + 1
    ∧ (run_request exch u maxRetries maxWait).sleeps.length = maxRetries := by
  suffices H : ∀ (fuel attempt : Nat), attempt + fuel = maxRetries + 1 → 0 < fuel →
      (request_loop exch u maxRetries maxWait attempt fuel).result
          = Except.error (ReqFailure.rateLimit (r maxRetries).retryAfter)
      ∧ (request_loop exch u maxRetries maxWait attempt fuel).exchanges
          = maxRetries + 1
      ∧ (request_loop exch u maxRetries maxWait attempt fuel).sleeps.length
          = maxRetries - attempt by
    have h := H (maxRetries + 1) 0 (by omega) (by omega)
    exact ⟨h.1, h.2.1, by rw [run_request]; omega⟩
  intro fuel
  induction fuel with
  | zero => intro attempt h hpos; omega
  | succ n ih =>
    intro attempt h _
    have hs := h429 attempt
    by_cases hlt : attempt < maxRetries
    · obtain ⟨ih1, ih2, ih3⟩ := ih (attempt + 1) (by omega) (by omega)
      simp only [request_loop, hr attempt, hs]
      rw [if_neg (by simp), if_pos (by simp), if_pos hlt]
      refine ⟨ih1, ih2, ?_⟩
      simp only [List.length_cons, ih3]
      omega
    · have heq : attempt = maxRetries := by omega
      subst heq
      simp only [request_loop, hr attempt, hs]
      rw [if_neg (by simp), if_pos (by simp), if_neg hlt]
      exact ⟨rfl, rfl, by simp⟩

/-- Witness for C3: three straight 429s with `Retry-After: 7` and
`max_retries = 2` end in `RateLimitError(retry_after=7)` after exactly
three exchanges. -/
theorem c3_rate_limit_exhaustion_witness :
    (run_request (fun _ => ExchangeOutcome.response ⟨429, some 7, none, ("")⟩)
        (fun _ => 0) 2 60).result
      = Except.error (ReqFailure.rateLimit (some 7))
    ∧ (run_request (fun _ => ExchangeOutcome.response ⟨429, some 7, none, ("")⟩)
        (fun _ => 0) 2 60).exchanges = 3 :=
  ⟨(c3_rate_limit_exhaustion _ _ 2 60 (fun _ => ⟨429, some 7, none, ("")⟩)
      (fun _ => rfl) (fun _ => rfl)).1,
    (c3_rate_limit_exhaustion _ _ 2 60 (fun _ => ⟨429, some 7, none, ("")⟩)
      (fun _ => rfl) (fun _ => rfl)).2.1⟩

/-- C9: a 404 on the first exchange raises `Entity not found` with status
404 and the letter-prefix suggestion immediately: one exchange, no sleeps,
no retries. -/
theorem c9_not_found_immediate
    (exch : Nat → ExchangeOutcome) (u : Nat → ℚ) (maxRetries maxWait : Nat)
    (r : HTTPResponse) (h0 : exch 0 = ExchangeOutcome.response r)
    (h404 : r.status = 404) :
    run_request exch u maxRetries maxWait
      = ⟨Except.error (ReqFailure.apiError ("Entity not found") (some 404)
          (some notFoundSuggestion)), 1, []⟩ := by
  rw [run_request]
  simp only [request_loop, h0, h404]
  rw [if_neg (by simp), if_neg (by simp), if_pos (by simp)]

/-- Witness for C9 at a concrete 404 exchange. -/
theorem c9_not_found_immediate_witness :
    run_request (fun _ => ExchangeOutcome.response ⟨404, none, none, ("")⟩)
        (fun _ => 0) 3 60
      = ⟨Except.error (ReqFailure.apiError ("Entity not found") (some 404)
          (some notFoundSuggestion)), 1, []⟩ :=
  c9_not_found_immediate _ _ 3 60 ⟨404, none, none, ("")⟩ rfl rfl

/-- C4 counterexample: at attempt 0 with no `Retry-After` and
`max_retry_wait = 60`, the base is `min(2**0, 60) = 1`; with draw `0` the
wait the code stores and sleeps is `int(1 * 0.75) = 0`, which lies below
`0.75 × base`, outside the claimed closed interval. -/
theorem c4_jitter_counterexample :
    storedWait (waitBase 0 60) 0 = 0
    ∧ ¬(((3 : ℚ)/4) * ((waitBase 0 60 : Nat) : ℚ)
          ≤ ((storedWait (waitBase 0 60) 0 : Int) : ℚ)) := by
  have hb : waitBase 0 60 = 1 := rfl
  have h34 : jitteredWait 1 0 = 3/4 := by
    unfold jitteredWait
    norm_num
  have hzero : storedWait (waitBase 0 60) 0 = 0 := by
    rw [hb]
    unfold storedWait pyInt
    rw [h34, if_pos (by norm_num)]
    have hf : Rat.floor ((3 : ℚ)/4) = ⌊(3 : ℚ)/4⌋ := rfl
    rw [hf, Int.floor_eq_zero_iff]
    constructor <;> norm_num
  refine ⟨hzero, ?_⟩
  rw [hzero, hb]
  norm_num

/-- C4 (amended): at attempt 0 the base is `min(2**0, max_retry_wait)` and,
for every draw `u ∈ [0, 1)`, the real-valued jitter product
`base * (0.75 + u * 0.5)` lies within the closed interval
`[0.75 × base, 1.25 × base]`; the wait the code then stores is the integer
truncation (floor) of that product, which can fall below `0.75 × base`. -/
theorem c4_jitter_bounds (maxWait : Nat) (u : ℚ) (h0 : 0 ≤ u) (h1 : u < 1) :
    ((3 : ℚ)/4) * ((waitBase 0 maxWait : Nat) : ℚ)
        ≤ jitteredWait (waitBase 0 maxWait) u
    ∧ jitteredWait (waitBase 0 maxWait) u
        ≤ ((5 : ℚ)/4) * ((waitBase 0 maxWait : Nat) : ℚ)
    ∧ storedWait (waitBase 0 maxWait) u
        = Rat.floor (jitteredWait (waitBase 0 maxWait) u) := by
  have hbnn : (0 : ℚ) ≤ ((waitBase 0 maxWait : Nat) : ℚ) := by positivity
  refine ⟨?_, ?_, ?_⟩
  · unfold jitteredWait
    nlinarith [mul_nonneg hbnn h0]
  · unfold jitteredWait
    nlinarith [mul_nonneg hbnn (by linarith : (0 : ℚ) ≤ 1 - u)]
  · unfold storedWait pyInt
    rw [if_pos]
    unfold jitteredWait
    positivity

/-- Witness for the amended C4 at `max_retry_wait = 60`, draw `1/2`. -/
theorem c4_jitter_bounds_witness :
    (0 : ℚ) ≤ 1/2 ∧ ((1 : ℚ)/2) < 1
    ∧ ((3 : ℚ)/4) * ((waitBase 0 60 : Nat) : ℚ)
        ≤ jitteredWait (waitBase 0 60) (1/2) :=
  ⟨by norm_num, by norm_num,
    (c4_jitter_bounds 60 (1/2) (by norm_num) (by norm_num)).1⟩
